import Mathlib

/-!
Verification development for the MindCanvas camera capture component
(`CameraView` in the repository source).

The component is a single React function component holding its session in
React state (`mode`, `facingMode`, `stream`, `isRecording`, `preview`,
`previewBlob`) and refs (`mediaRecorderRef`, `recordedChunksRef`).  We embed
it shallowly: the state is a record, every event handler of the source is a
pure Lean function from the state (plus the platform's responses, passed in
as explicit arguments) to a new state together with a list of externally
visible effects (track stops, `getUserMedia` requests, callbacks, object-URL
creation/revocation, recorder start/stop, logging, alerts).

The component itself has no `Closed` state: closing the session is signalled
to the parent by emitting the `onClose` callback effect, and teardown of the
live stream happens in the unmount cleanup of the `useEffect`.  Liveness of
device stream handles is tracked by a ghost field `liveStreams`: a stream id
is added when `getUserMedia` succeeds and removed when its tracks are
stopped.
-/

inductive Mode
  | photo
  | video
deriving DecidableEq, Repr

inductive Facing
  | environment
  | user
deriving DecidableEq, Repr

/-- A binary blob: its byte contents and its MIME type, mirroring the parts
of a DOM `Blob` the component uses (`size`, `type`, the bytes). -/
structure Blob where
  data : List Nat
  type : String
deriving DecidableEq, Repr

/-- `Blob.size` is the byte length, as in the DOM. -/
def Blob.size (b : Blob) : Nat := b.data.length

/-- Which codec the `MediaRecorder` was constructed with: the preferred
`video/webm; codecs=vp9` option, or the platform default after fallback. -/
inductive Codec
  | vp9
  | platformDefault
deriving DecidableEq, Repr

inductive RecorderLife
  | recording
  | inactive
deriving DecidableEq, Repr

/-- The `MediaRecorder` held in `mediaRecorderRef`. -/
structure Recorder where
  codec : Codec
  streamId : Nat
  life : RecorderLife
deriving DecidableEq, Repr

/-- The React state and refs of `CameraView`, plus the ghost fields
`liveStreams` (ids of acquired streams whose tracks are not yet stopped) and
`nextId` (fresh-id supply for stream ids and object URLs). -/
structure CameraState where
  mode : Mode
  facingMode : Facing
  stream : Option Nat
  isRecording : Bool
  preview : Option Nat
  previewBlob : Option Blob
  recorder : Option Recorder
  recordedChunks : List Blob
  liveStreams : List Nat
  nextId : Nat
deriving DecidableEq, Repr

/-- Externally visible effects the handlers perform. -/
inductive Effect
  | stopTracks (sid : Nat)
  | getUserMedia (facing : Facing) (audio : Bool)
  | logError (msg : String)
  | alertUser (msg : String)
  | onCloseCb
  | onCaptureCb (data : List Nat) (mime : String)
  | encodeImage (width : Nat) (height : Nat) (mime : String) (qualityPct : Nat)
  | createURL (url : Nat)
  | revokeURL (url : Nat)
  | recorderStart (sid : Nat)
  | recorderStop (sid : Nat)
deriving DecidableEq, Repr

/-- `setupCamera(currentFacingMode, currentMode)` from the source: if a
stream is held, stop every one of its tracks; then request a new stream with
audio exactly when the mode is video.  `ok` is the platform's answer to
`getUserMedia`: `true` delivers a fresh stream, `false` is the
`DeviceAccessError` path (log, alert the user, invoke `onClose`).  On
failure the source leaves the `stream` state variable untouched. -/
def setupCamera (st : CameraState) (currentFacing : Facing) (currentMode : Mode)
    (ok : Bool) : CameraState × List Effect :=
  let audio := decide (currentMode = Mode.video)
  match st.stream with
  | some sid =>
      let st1 := { st with liveStreams := st.liveStreams.filter (· != sid) }
      if ok then
        ({ st1 with stream := some st1.nextId,
                    liveStreams := st1.liveStreams ++ [st1.nextId],
                    nextId := st1.nextId + 1 },
         [Effect.stopTracks sid, Effect.getUserMedia currentFacing audio])
      else
        (st1,
         [Effect.stopTracks sid, Effect.getUserMedia currentFacing audio,
          Effect.logError "Error accessing camera:",
          Effect.alertUser "Could not access camera. Please check permissions.",
          Effect.onCloseCb])
  | none =>
      if ok then
        ({ st with stream := some st.nextId,
                   liveStreams := st.liveStreams ++ [st.nextId],
                   nextId := st.nextId + 1 },
         [Effect.getUserMedia currentFacing audio])
      else
        (st,
         [Effect.getUserMedia currentFacing audio,
          Effect.logError "Error accessing camera:",
          Effect.alertUser "Could not access camera. Please check permissions.",
          Effect.onCloseCb])

/-- `handleFlipCamera`: toggle the facing direction. -/
def handleFlipCamera (st : CameraState) : CameraState :=
  { st with facingMode :=
      if st.facingMode = Facing.user then Facing.environment else Facing.user }

/-- `handleTakePicture`: when a video element is present, draw the current
frame onto a canvas sized to the stream's native `videoWidth`/`videoHeight`
and encode it via `canvas.toBlob(..., "image/jpeg", 0.95)` (quality is kept
as an integer percentage).  `encoded` is the platform's asynchronous answer:
`some bytes` runs the callback's non-null branch, `none` (encode failure)
leaves everything unchanged. -/
def handleTakePicture (st : CameraState) (videoPresent : Bool) (vw vh : Nat)
    (encoded : Option (List Nat)) : CameraState × List Effect :=
  if videoPresent then
    match encoded with
    | some bytes =>
        let b : Blob := { data := bytes, type := "image/jpeg" }
        ({ st with preview := some st.nextId, previewBlob := some b,
                   nextId := st.nextId + 1 },
         [Effect.encodeImage vw vh "image/jpeg" 95, Effect.createURL st.nextId])
    | none => (st, [Effect.encodeImage vw vh "image/jpeg" 95])
  else (st, [])

/-- `handleStartRecording`: when a stream is held, clear the chunk list and
construct a `MediaRecorder` with the preferred `video/webm; codecs=vp9`
option; if the platform rejects it (`vp9Ok = false`), log the error and fall
back to a default-codec recorder; then start it and set `isRecording`. -/
def handleStartRecording (st : CameraState) (vp9Ok : Bool) :
    CameraState × List Effect :=
  match st.stream with
  | some sid =>
      let chosen := if vp9Ok then Codec.vp9 else Codec.platformDefault
      let logEffs :=
        if vp9Ok then []
        else [Effect.logError "Error creating MediaRecorder with vp9, falling back:"]
      let r : Recorder := { codec := chosen, streamId := sid,
                            life := RecorderLife.recording }
      ({ st with recordedChunks := [], recorder := some r, isRecording := true },
       logEffs ++ [Effect.recorderStart sid])
  | none => (st, [])

/-- The recorder's `ondataavailable` handler: push the delivered chunk onto
`recordedChunksRef` exactly when its size is positive.  It can only fire
while a recorder exists. -/
def onDataAvailable (st : CameraState) (chunk : Blob) : CameraState :=
  match st.recorder with
  | some _ =>
      if chunk.size > 0 then
        { st with recordedChunks := st.recordedChunks ++ [chunk] }
      else st
  | none => st

/-- The recorder's `onstop` handler: build
`new Blob(recordedChunksRef.current, \x7b type: "video/webm" \x7d)` — the
ordered concatenation of the retained chunks — and install it as the
preview blob with a fresh object URL. -/
def onRecorderStop (st : CameraState) : CameraState × List Effect :=
  let b : Blob := { data := (st.recordedChunks.map Blob.data).flatten,
                    type := "video/webm" }
  ({ st with preview := some st.nextId, previewBlob := some b,
             nextId := st.nextId + 1 },
   [Effect.createURL st.nextId])

/-- `handleStopRecording`: if a recorder exists, stop it (its `onstop`
fires later as a separate event) and clear `isRecording`. -/
def handleStopRecording (st : CameraState) : CameraState × List Effect :=
  match st.recorder with
  | some r =>
      ({ st with recorder := some { r with life := RecorderLife.inactive },
                 isRecording := false },
       [Effect.recorderStop r.streamId])
  | none => (st, [])

/-- `handleShutterClick`: photo mode takes a picture; video mode stops the
recording when one is active and starts one otherwise. -/
def handleShutterClick (st : CameraState) (vp9Ok : Bool) (vw vh : Nat)
    (encoded : Option (List Nat)) : CameraState × List Effect :=
  if st.mode = Mode.photo then handleTakePicture st true vw vh encoded
  else if st.isRecording then handleStopRecording st
  else handleStartRecording st vp9Ok

/-- `handleRetake`: clear the preview and its blob and revoke the object
URL that was being displayed. -/
def handleRetake (st : CameraState) : CameraState × List Effect :=
  ({ st with preview := none, previewBlob := none },
   match st.preview with
   | some url => [Effect.revokeURL url]
   | none => [])

/-- `handleConfirm`: if a captured blob exists, hand it to the caller via
`onCapture(previewBlob, previewBlob.type)`.  Nothing else happens: the
source neither revokes the preview URL nor changes any state here. -/
def handleConfirm (st : CameraState) : CameraState × List Effect :=
  match st.previewBlob with
  | some b => (st, [Effect.onCaptureCb b.data b.type])
  | none => (st, [])

/-- The close button's `onClick=\x7bonClose\x7d`: it invokes the `onClose`
callback directly and nothing else. -/
def handleCloseClick (st : CameraState) : CameraState × List Effect :=
  (st, [Effect.onCloseCb])

/-- The `useEffect` cleanup that runs on unmount: stop the tracks of the
held stream.  The recorder is not touched. -/
def unmountCleanup (st : CameraState) : CameraState × List Effect :=
  match st.stream with
  | some sid =>
      ({ st with liveStreams := st.liveStreams.filter (· != sid) },
       [Effect.stopTracks sid])
  | none => (st, [])

/-- The user intents the rendered controls can raise. -/
inductive Intent
  | setMode (m : Mode)
  | flipFacing
  | shutter
  | retake
  | confirm
  | close
deriving DecidableEq, Repr

/-- Which controls the JSX renders in a given state: the retake/confirm
buttons only while a preview is shown; the shutter, the PHOTO/VIDEO mode
buttons and the flip button only while no preview is shown (in particular
they remain rendered while recording); the close button always. -/
def intentAvailable (st : CameraState) : Intent → Bool
  | Intent.setMode _ => st.preview.isNone
  | Intent.flipFacing => st.preview.isNone
  | Intent.shutter => st.preview.isNone
  | Intent.retake => st.preview.isSome
  | Intent.confirm => st.preview.isSome
  | Intent.close => true

/-- The platform's responses to the asynchronous device APIs, supplied as
an oracle: whether `getUserMedia` succeeds, whether the vp9 recorder option
is accepted, the video element's native frame dimensions, and the result of
the jpeg encode. -/
structure Oracle where
  acquireOk : Bool
  vp9Ok : Bool
  videoW : Nat
  videoH : Nat
  encoded : Option (List Nat)
deriving DecidableEq, Repr

/-- Dispatch one user intent against the current state.  An intent whose
control is not rendered cannot fire and is a no-op.  `setMode` to the same
mode leaves the state unchanged and does not re-run the effect;
`setMode` to a different mode and `flipFacing` update the state and re-run
`setupCamera` via the `useEffect` on `[facingMode, mode]`. -/
def dispatchIntent (st : CameraState) (o : Oracle) (i : Intent) :
    CameraState × List Effect :=
  if intentAvailable st i then
    match i with
    | Intent.setMode m =>
        if m = st.mode then (st, [])
        else
          let st1 := { st with mode := m }
          setupCamera st1 st1.facingMode st1.mode o.acquireOk
    | Intent.flipFacing =>
        let st1 := handleFlipCamera st
        setupCamera st1 st1.facingMode st1.mode o.acquireOk
    | Intent.shutter => handleShutterClick st o.vp9Ok o.videoW o.videoH o.encoded
    | Intent.retake => handleRetake st
    | Intent.confirm => handleConfirm st
    | Intent.close => handleCloseClick st
  else (st, [])

/-- All events that drive the component: mount (the initial `useEffect`
run), user intents, the recorder's `ondataavailable` and `onstop`
callbacks, and unmount. -/
inductive Ev
  | mount
  | intent (i : Intent)
  | dataAvail (chunk : Blob)
  | recStopDone
  | unmount
deriving DecidableEq, Repr

/-- One step of the event-driven component. -/
def step (st : CameraState) (o : Oracle) (e : Ev) : CameraState × List Effect :=
  match e with
  | Ev.mount => setupCamera st st.facingMode st.mode o.acquireOk
  | Ev.intent i => dispatchIntent st o i
  | Ev.dataAvail c => (onDataAvailable st c, [])
  | Ev.recStopDone => onRecorderStop st
  | Ev.unmount => unmountCleanup st

/-- Run a sequence of events, returning the final state. -/
def runTrace (st : CameraState) (o : Oracle) : List Ev → CameraState
  | [] => st
  | e :: es => runTrace (step st o e).1 o es

/-- The spec's session states that the component can actually be observed
in: a shown preview is `Previewing`, an active recorder is `Recording`,
otherwise the live stream is `Streaming`.  The component has no `Closed`
state of its own: closure is signalled by the `onCloseCb` effect. -/
inductive SessionState
  | streaming
  | recording
  | previewing
deriving DecidableEq, Repr

def sessionStateOf (st : CameraState) : SessionState :=
  if st.preview.isSome then SessionState.previewing
  else if st.isRecording then SessionState.recording
  else SessionState.streaming

/-- At most one live stream handle, and any live handle is the one the
component currently holds. -/
def liveInv (st : CameraState) : Prop :=
  st.liveStreams.length ≤ 1 ∧ ∀ x ∈ st.liveStreams, st.stream = some x

instance (st : CameraState) : Decidable (liveInv st) := by
  unfold liveInv
  infer_instance

/-- Run a sequence of events, returning the final state and every effect
performed along the way, in order. -/
def runTraceEffects (st : CameraState) (o : Oracle) :
    List Ev → CameraState × List Effect
  | [] => (st, [])
  | e :: es =>
      let r := step st o e
      let r2 := runTraceEffects r.1 o es
      (r2.1, r.2 ++ r2.2)

/-- A reachable-looking state: previewing a captured photo (object URL 1,
stream 0 still held). -/
def stPreviewing : CameraState :=
  { mode := Mode.photo, facingMode := Facing.environment, stream := some 0,
    isRecording := false, preview := some 1,
    previewBlob := some { data := [7, 7, 7], type := "image/jpeg" },
    recorder := none, recordedChunks := [], liveStreams := [0], nextId := 2 }

/-- A reachable-looking state: mid-recording in video mode on stream 0. -/
def stRecording : CameraState :=
  { mode := Mode.video, facingMode := Facing.environment, stream := some 0,
    isRecording := true, preview := none, previewBlob := none,
    recorder := some { codec := Codec.vp9, streamId := 0,
                       life := RecorderLife.recording },
    recordedChunks := [], liveStreams := [0], nextId := 1 }

/-- A reachable-looking state: live video-mode preview, not recording. -/
def stStreaming : CameraState :=
  { mode := Mode.video, facingMode := Facing.environment, stream := some 0,
    isRecording := false, preview := none, previewBlob := none,
    recorder := none, recordedChunks := [], liveStreams := [0], nextId := 1 }

def oracle0 : Oracle :=
  { acquireOk := true, vp9Ok := true, videoW := 1920, videoH := 1080,
    encoded := some [1, 2] }

lemma live_filter_nil (st : CameraState) (sid : Nat) (h : liveInv st)
    (hs : st.stream = some sid) : st.liveStreams.filter (· != sid) = [] := by
  rw [List.filter_eq_nil_iff]
  intro a ha
  have hx := h.2 a ha
  rw [hs] at hx
  have : sid = a := by injection hx
  simp [this]

lemma live_nil_of_none (st : CameraState) (h : liveInv st)
    (hs : st.stream = none) : st.liveStreams = [] := by
  cases hl : st.liveStreams with
  | nil => rfl
  | cons a t =>
      have hx := h.2 a (by rw [hl]; exact List.mem_cons_self a t)
      rw [hs] at hx
      cases hx

lemma liveInv_of_same (st st1 : CameraState) (h : liveInv st)
    (hl : st1.liveStreams = st.liveStreams) (hsx : st1.stream = st.stream) :
    liveInv st1 := by
  constructor
  · rw [hl]; exact h.1
  · intro x hx
    rw [hl] at hx
    rw [hsx]
    exact h.2 x hx

lemma liveInv_setupCamera (st : CameraState) (f : Facing) (m : Mode)
    (ok : Bool) (h : liveInv st) : liveInv (setupCamera st f m ok).1 := by
  cases hs : st.stream with
  | some sid =>
      have hfil := live_filter_nil st sid h hs
      cases ok <;> simp [setupCamera, hs, hfil, liveInv]
  | none =>
      have hemp := live_nil_of_none st h hs
      cases ok <;> simp [setupCamera, hs, hemp, liveInv]

lemma liveInv_handleTakePicture (st : CameraState) (vp : Bool) (vw vh : Nat)
    (enc : Option (List Nat)) (h : liveInv st) :
    liveInv (handleTakePicture st vp vw vh enc).1 := by
  cases vp <;> cases enc <;>
    exact liveInv_of_same st _ h rfl rfl

lemma liveInv_handleStartRecording (st : CameraState) (vp9Ok : Bool)
    (h : liveInv st) : liveInv (handleStartRecording st vp9Ok).1 := by
  cases hs : st.stream with
  | some sid =>
      have : (handleStartRecording st vp9Ok).1 =
          { st with recordedChunks := [],
                    recorder := some { codec := if vp9Ok then Codec.vp9 else Codec.platformDefault,
                                       streamId := sid,
                                       life := RecorderLife.recording },
                    isRecording := true } := by
        simp [handleStartRecording, hs]
      rw [this]
      exact liveInv_of_same st _ h rfl rfl
  | none =>
      have : (handleStartRecording st vp9Ok).1 = st := by
        simp [handleStartRecording, hs]
      rw [this]
      exact h

lemma liveInv_handleStopRecording (st : CameraState) (h : liveInv st) :
    liveInv (handleStopRecording st).1 := by
  cases hr : st.recorder with
  | some r =>
      have : (handleStopRecording st).1 =
          { st with recorder := some { r with life := RecorderLife.inactive },
                    isRecording := false } := by
        simp [handleStopRecording, hr]
      rw [this]
      exact liveInv_of_same st _ h rfl rfl
  | none =>
      have : (handleStopRecording st).1 = st := by
        simp [handleStopRecording, hr]
      rw [this]
      exact h

lemma liveInv_onDataAvailable (st : CameraState) (c : Blob) (h : liveInv st) :
    liveInv (onDataAvailable st c) := by
  cases hr : st.recorder with
  | some r =>
      by_cases hc : c.size > 0
      · have : onDataAvailable st c =
            { st with recordedChunks := st.recordedChunks ++ [c] } := by
          simp [onDataAvailable, hr, hc]
        rw [this]
        exact liveInv_of_same st _ h rfl rfl
      · have : onDataAvailable st c = st := by
          simp [onDataAvailable, hr, hc]
        rw [this]
        exact h
  | none =>
      have : onDataAvailable st c = st := by
        simp [onDataAvailable, hr]
      rw [this]
      exact h

lemma liveInv_onRecorderStop (st : CameraState) (h : liveInv st) :
    liveInv (onRecorderStop st).1 :=
  liveInv_of_same st _ h rfl rfl

lemma liveInv_unmountCleanup (st : CameraState) (h : liveInv st) :
    liveInv (unmountCleanup st).1 := by
  cases hs : st.stream with
  | some sid =>
      have hfil := live_filter_nil st sid h hs
      simp [unmountCleanup, hs, hfil, liveInv]
  | none =>
      have : (unmountCleanup st).1 = st := by
        simp [unmountCleanup, hs]
      rw [this]
      exact h

lemma liveInv_dispatchIntent (st : CameraState) (o : Oracle) (i : Intent)
    (h : liveInv st) : liveInv (dispatchIntent st o i).1 := by
  unfold dispatchIntent
  by_cases ha : intentAvailable st i = true
  · simp only [ha, if_pos]
    cases i with
    | setMode m =>
        by_cases hm : m = st.mode
        · simp [hm]; exact h
        · simp only [hm, if_neg, if_false]
          exact liveInv_setupCamera _ _ _ _ (liveInv_of_same st _ h rfl rfl)
    | flipFacing =>
        exact liveInv_setupCamera _ _ _ _
          (liveInv_of_same st _ h rfl rfl)
    | shutter =>
        unfold handleShutterClick
        by_cases hm : st.mode = Mode.photo
        · simp only [hm, if_pos]
          exact liveInv_handleTakePicture st true o.videoW o.videoH o.encoded h
        · simp only [hm, if_neg, if_false]
          by_cases hr : st.isRecording = true
          · simp only [hr, if_pos]
            exact liveInv_handleStopRecording st h
          · simp only [hr, if_false]
            exact liveInv_handleStartRecording st o.vp9Ok h
    | retake => exact liveInv_of_same st _ h rfl rfl
    | confirm =>
        unfold handleConfirm
        cases hb : st.previewBlob <;> simp <;> exact h
    | close => exact h
  · simp only [ha]
    simp
    exact h

lemma liveInv_step (st : CameraState) (o : Oracle) (e : Ev) (h : liveInv st) :
    liveInv (step st o e).1 := by
  cases e with
  | mount => exact liveInv_setupCamera st st.facingMode st.mode o.acquireOk h
  | intent i => exact liveInv_dispatchIntent st o i h
  | dataAvail c => exact liveInv_onDataAvailable st c h
  | recStopDone => exact liveInv_onRecorderStop st h
  | unmount => exact liveInv_unmountCleanup st h

lemma liveInv_runTrace (st : CameraState) (o : Oracle) (evs : List Ev)
    (h : liveInv st) : liveInv (runTrace st o evs) := by
  induction evs generalizing st with
  | nil => exact h
  | cons e es ih => exact ih _ (liveInv_step st o e h)

/-- C1 counterexample: from the Previewing state `stPreviewing`, issuing
`confirm()` leaves the component state completely unchanged — still
`Previewing`, the preview object URL still live — and the emitted effects
contain neither a revocation of the PreviewReference nor any closing
signal.  So the claim that confirm revokes the reference and moves the
session to `Closed` is false on this code. -/
theorem confirm_revokes_and_closes_counterexample :
    (dispatchIntent stPreviewing oracle0 Intent.confirm).1 = stPreviewing
    ∧ sessionStateOf (dispatchIntent stPreviewing oracle0 Intent.confirm).1
        = SessionState.previewing
    ∧ Effect.revokeURL 1 ∉ (dispatchIntent stPreviewing oracle0 Intent.confirm).2
    ∧ Effect.onCloseCb ∉ (dispatchIntent stPreviewing oracle0 Intent.confirm).2 := by
  decide

/-- C1 (amended): after `confirm()` from a Previewing state holding a
captured artifact, the `onCapture` callback is invoked exactly once with the
artifact's bytes and mimeType — it is the only effect — and the component
itself neither revokes the live PreviewReference nor transitions anywhere:
the state is unchanged, and dismissal of the session is left to the
caller receiving `onCapture`. -/
theorem confirm_invokes_onCapture_once (st : CameraState) (o : Oracle)
    (u : Nat) (b : Blob) (hp : st.preview = some u)
    (hb : st.previewBlob = some b) :
    dispatchIntent st o Intent.confirm = (st, [Effect.onCaptureCb b.data b.type]) := by
  simp [dispatchIntent, intentAvailable, hp, handleConfirm, hb]

/-- C1 witness: the amended theorem applied at the concrete Previewing
state. -/
theorem confirm_invokes_onCapture_once_witness :
    dispatchIntent stPreviewing oracle0 Intent.confirm
      = (stPreviewing, [Effect.onCaptureCb [7, 7, 7] "image/jpeg"]) :=
  confirm_invokes_onCapture_once stPreviewing oracle0 1
    { data := [7, 7, 7], type := "image/jpeg" } rfl rfl

/-- C2: in the Recording state the PHOTO/VIDEO mode buttons and the flip
button are still rendered (only a shown preview hides them), so a
`setMode(photo)` issued mid-recording changes the stored mode and re-runs
stream acquisition — stopping the tracks of the very stream being
recorded — and a `flipFacing` likewise changes the facing direction.  The
claim (and the spec) say these intents must have no effect outside
`Streaming`; the code violates this in `Recording`. -/
theorem setMode_takes_effect_while_recording :
    sessionStateOf stRecording = SessionState.recording
    ∧ (dispatchIntent stRecording oracle0 (Intent.setMode Mode.photo)).1.mode
        = Mode.photo
    ∧ Effect.stopTracks 0
        ∈ (dispatchIntent stRecording oracle0 (Intent.setMode Mode.photo)).2
    ∧ (dispatchIntent stRecording oracle0 Intent.flipFacing).1.facingMode
        = Facing.user := by
  decide

/-- C3: closing while Recording never stops the recorder.  The close
button invokes `onClose` directly and the unmount cleanup only stops the
stream's tracks: across the whole close-then-unmount trace the effects are
exactly `[onClose, stopTracks 0]` — no `recorderStop` ever occurs — and
the `MediaRecorder` is left in its recording state.  The claim (and the
spec) require the recording to be stopped and finalized before `Closed`;
the code abandons it. -/
theorem close_while_recording_abandons_recorder :
    (runTraceEffects stRecording oracle0 [Ev.intent Intent.close, Ev.unmount]).2
      = [Effect.onCloseCb, Effect.stopTracks 0]
    ∧ (runTraceEffects stRecording oracle0 [Ev.intent Intent.close, Ev.unmount]).1.recorder
      = some { codec := Codec.vp9, streamId := 0, life := RecorderLife.recording }
    ∧ (runTraceEffects stRecording oracle0 [Ev.intent Intent.close, Ev.unmount]).1.isRecording
      = true := by
  decide

/-- C4: at most one stream handle is live at any time.  First, whenever a
stream is held, `setupCamera` begins by stopping every track of that held
handle and only then issues the `getUserMedia` request (for any facing,
mode, and outcome).  Second, the single-live-handle invariant `liveInv` is
preserved by every event the component can process, hence along every
event trace: no two live handles ever coexist. -/
theorem acquire_releases_previous_handle_first :
    (∀ (st : CameraState) (sid : Nat) (f : Facing) (m : Mode) (ok : Bool),
        st.stream = some sid →
        ((setupCamera st f m ok).2).take 2
          = [Effect.stopTracks sid,
             Effect.getUserMedia f (decide (m = Mode.video))])
    ∧ (∀ (st : CameraState) (o : Oracle) (evs : List Ev),
        liveInv st → liveInv (runTrace st o evs)) := by
  constructor
  · intro st sid f m ok hs
    cases ok <;> simp [setupCamera, hs]
  · intro st o evs h
    exact liveInv_runTrace st o evs h

/-- C4 witness: the release-before-acquire ordering and the trace
invariant at concrete inputs. -/
theorem acquire_releases_previous_handle_first_witness :
    ((setupCamera stRecording Facing.user Mode.video true).2).take 2
      = [Effect.stopTracks 0, Effect.getUserMedia Facing.user true]
    ∧ liveInv (runTrace stRecording oracle0 [Ev.intent Intent.flipFacing]) := by
  constructor
  · exact acquire_releases_previous_handle_first.1 stRecording 0 Facing.user
      Mode.video true rfl
  · exact acquire_releases_previous_handle_first.2 stRecording oracle0
      [Ev.intent Intent.flipFacing] (by decide)

/-- C5: stopping an active recording (recorder `stop()` followed by its
`onstop` callback) always installs as the captured artifact the blob whose
bytes are the ordered concatenation of the retained chunks, with mimeType
"video/webm"; with zero retained chunks it still yields a (zero-length)
artifact rather than failing. -/
theorem stopRecording_concatenates_chunks (st : CameraState) (r : Recorder)
    (h : st.recorder = some r) :
    (onRecorderStop (handleStopRecording st).1).1.previewBlob
      = some { data := (st.recordedChunks.map Blob.data).flatten,
               type := "video/webm" }
    ∧ (st.recordedChunks = [] →
        (onRecorderStop (handleStopRecording st).1).1.previewBlob
          = some { data := [], type := "video/webm" }) := by
  constructor
  · simp [handleStopRecording, h, onRecorderStop]
  · intro h2
    simp [handleStopRecording, h, onRecorderStop, h2]

/-- C5 witness: stopping the concrete recording session with zero
retained chunks yields the empty "video/webm" artifact. -/
theorem stopRecording_concatenates_chunks_witness :
    (onRecorderStop (handleStopRecording stRecording).1).1.previewBlob
      = some { data := [], type := "video/webm" } :=
  (stopRecording_concatenates_chunks stRecording
    { codec := Codec.vp9, streamId := 0, life := RecorderLife.recording } rfl).2 rfl

/-- C6: while a recorder exists, a delivered chunk is appended to the
ordered chunk sequence exactly when it is non-empty; a zero-length chunk
leaves the sequence unchanged, so it can never appear in the finalized
artifact. -/
theorem chunk_retained_iff_nonempty (st : CameraState) (c : Blob)
    (h : st.recorder.isSome = true) :
    ((onDataAvailable st c).recordedChunks = st.recordedChunks ++ [c]
        ↔ 0 < c.size)
    ∧ (c.size = 0 →
        (onDataAvailable st c).recordedChunks = st.recordedChunks) := by
  cases hr : st.recorder with
  | none => rw [hr] at h; cases h
  | some r =>
      constructor
      · constructor
        · intro heq
          by_contra hc
          have hc0 : ¬ c.size > 0 := by omega
          rw [onDataAvailable, hr] at heq
          simp [hc0] at heq
        · intro hc
          simp [onDataAvailable, hr, hc]
      · intro hc
        have hc0 : ¬ c.size > 0 := by omega
        simp [onDataAvailable, hr, hc0]

/-- C6 witness: at the concrete recording state, a one-byte chunk is
appended (and its appending is equivalent to its non-emptiness). -/
theorem chunk_retained_iff_nonempty_witness :
    (onDataAvailable stRecording { data := [5], type := "video/webm" }).recordedChunks
        = stRecording.recordedChunks ++ [{ data := [5], type := "video/webm" }]
      ↔ 0 < Blob.size { data := [5], type := "video/webm" } :=
  (chunk_retained_iff_nonempty stRecording
    { data := [5], type := "video/webm" } rfl).1

/-- C7: whenever `getUserMedia` fails (the `DeviceAccessError` path of
`setupCamera`), from any state satisfying the single-live-handle
invariant, the resulting state holds no live stream handle at all and the
`onClose` callback is emitted exactly once — the session is closed. -/
theorem deviceAccessError_closes_session (st : CameraState) (f : Facing)
    (m : Mode) (h : liveInv st) :
    (setupCamera st f m false).1.liveStreams = []
    ∧ (setupCamera st f m false).2.count Effect.onCloseCb = 1 := by
  cases hs : st.stream with
  | some sid =>
      have hfil := live_filter_nil st sid h hs
      constructor
      · simp [setupCamera, hs, hfil]
      · simp [setupCamera, hs, List.count_cons]
  | none =>
      have hemp := live_nil_of_none st h hs
      constructor
      · simp [setupCamera, hs, hemp]
      · simp [setupCamera, hs, List.count_cons]

/-- C7 witness: device-access failure at the concrete streaming state. -/
theorem deviceAccessError_closes_session_witness :
    (setupCamera stStreaming Facing.environment Mode.video false).1.liveStreams = []
    ∧ (setupCamera stStreaming Facing.environment Mode.video false).2.count
        Effect.onCloseCb = 1 :=
  deviceAccessError_closes_session stStreaming Facing.environment Mode.video
    (by decide)

/-- C8: when the preferred vp9 recorder option is rejected by the
platform, `handleStartRecording` still installs a recorder — with the
platform-default codec — recording starts (`isRecording` becomes true and
the recorder is started), and the only effects are the error log and the
recorder start: no alert, no `onClose`, nothing surfaced to the caller or
the user. -/
theorem codec_fallback_is_silent (st : CameraState) (sid : Nat)
    (h : st.stream = some sid) :
    (handleStartRecording st false).1.recorder
      = some { codec := Codec.platformDefault, streamId := sid,
               life := RecorderLife.recording }
    ∧ (handleStartRecording st false).1.isRecording = true
    ∧ (handleStartRecording st false).2
      = [Effect.logError "Error creating MediaRecorder with vp9, falling back:",
         Effect.recorderStart sid] := by
  refine ⟨?_, ?_, ?_⟩ <;> simp [handleStartRecording, h]

/-- C8 witness: the silent fallback at the concrete streaming state. -/
theorem codec_fallback_is_silent_witness :
    (handleStartRecording stStreaming false).1.recorder
      = some { codec := Codec.platformDefault, streamId := 0,
               life := RecorderLife.recording }
    ∧ (handleStartRecording stStreaming false).1.isRecording = true
    ∧ (handleStartRecording stStreaming false).2
      = [Effect.logError "Error creating MediaRecorder with vp9, falling back:",
         Effect.recorderStart 0] :=
  codec_fallback_is_silent stStreaming 0 rfl

/-- C9: a photo snapshot (with a video element present, whose native frame
dimensions are `vw × vh`) always issues the encode request at exactly those
dimensions with mime "image/jpeg" and quality 0.95 (stored as 95 percent);
when the platform delivers encoded bytes, the resulting artifact carries
exactly those bytes with mimeType "image/jpeg"; when the encode fails, the
request was still a jpeg request at native dimensions and no artifact is
installed. -/
theorem snapshot_native_dims_jpeg (st : CameraState) (vw vh : Nat)
    (bytes : List Nat) :
    (handleTakePicture st true vw vh (some bytes)).2.head?
      = some (Effect.encodeImage vw vh "image/jpeg" 95)
    ∧ (handleTakePicture st true vw vh (some bytes)).1.previewBlob
      = some { data := bytes, type := "image/jpeg" }
    ∧ (handleTakePicture st true vw vh none)
      = (st, [Effect.encodeImage vw vh "image/jpeg" 95]) := by
  refine ⟨?_, ?_, ?_⟩ <;> simp [handleTakePicture]

/-- C10: issuing `confirm()` when no captured blob is stored is a total
no-op: the state is unchanged and no effect — in particular no
`onCapture` — is performed, whether or not a preview URL happens to be
shown. -/
theorem confirm_without_artifact_noop (st : CameraState) (o : Oracle)
    (h : st.previewBlob = none) :
    dispatchIntent st o Intent.confirm = (st, []) := by
  cases hp : st.preview <;>
    simp [dispatchIntent, intentAvailable, hp, handleConfirm, h]

/-- C10 witness: confirm at the concrete streaming state (no captured
blob) does nothing. -/
theorem confirm_without_artifact_noop_witness :
    dispatchIntent stStreaming oracle0 Intent.confirm = (stStreaming, []) :=
  confirm_without_artifact_noop stStreaming oracle0 rfl
